import Mathlib

/-!
# User handlers of the padel backend: `src/api/controllers/users.js` over `src/api/models/users.js`

A shallow embedding of the user schema (`userSchema`, its `trim` setters, defaults, validators and
`pre("save")` hook) and of the handlers `registerUser`, `loginUser`, `updateUser`, `deleteUser`.

Conventions of the embedding.

* The `users` collection is a list of records in natural (insertion) order; `findOne` answers with
  the first record matching the filter.
* A handler runs over a `World`: the collection, the log of store and file-system calls it made
  (`ops`), and the log of its `res.status(c).json(b)` calls (`res`).  Express writes the first of
  these to the client and throws on any later one (headers already sent).
* The helpers the controllers import from `src/utils` (`ParamsErrorOfUser`,
  `registerUserControlDuplicated`, `idAndRoleChecked`, `generateToken`, `resultUserDeleted`), the
  two `bcrypt` primitives and the failures of the database are fields of `Env`; every theorem
  quantifies over them.
* A request body is typed: it carries any of the paths of the schema, strings as strings, `phone`
  as a number, `padelMatches` as a list of ids.  Timestamps are left out.
* Where the behaviour is that of Mongoose, Express or bcrypt rather than of the two source files,
  the definition says which behaviour is taken: setters run on documents and on filters,
  validation runs before the `pre("save")` hooks, `findByIdAndUpdate` runs neither, a second
  `res.json` throws, `bcrypt.compareSync` throws on `undefined`.
-/

set_option autoImplicit false

namespace Users

/-! ## JavaScript strings -/

/-- White space and line terminators of ECMAScript, the characters `String.prototype.trim` strips. -/
def isJsWhiteSpace (c : Char) : Bool :=
  let n := c.toNat
  n == 0x9 || n == 0xA || n == 0xB || n == 0xC || n == 0xD || n == 0x20 || n == 0xA0 ||
  n == 0x1680 || (0x2000 ≤ n && n ≤ 0x200A) || n == 0x2028 || n == 0x2029 || n == 0x202F ||
  n == 0x205F || n == 0x3000 || n == 0xFEFF

/-- The method `String.prototype.trim`: white space removed from both ends. -/
def jsTrim (s : String) : String :=
  String.mk ((s.data.dropWhile isJsWhiteSpace).reverse.dropWhile isJsWhiteSpace).reverse

/-- The property `length` of a JavaScript string: UTF-16 code units. -/
def jsLength (s : String) : Nat :=
  (s.data.map fun c => if c.toNat < 0x10000 then 1 else 2).sum

/-- Truthiness of a value that is a string, `undefined` or `null`. -/
def truthy : Option String → Bool
  | some s => s != ""
  | none => false

/-! ## The schema: `src/api/models/users.js` -/

/-- A persisted document of the `users` collection. -/
structure User where
  _id : String
  name : String
  email : String
  password : String
  phone : Nat
  role : String
  image : String
  padelMatches : List String
  deriving DecidableEq

/-- A document in memory, as `new User(...)` builds it: the required paths may still be unset. -/
structure UserDoc where
  _id : String
  name : Option String
  email : Option String
  password : Option String
  phone : Option Nat
  role : String
  image : String
  padelMatches : List String
  deriving DecidableEq

/-- The fields of `req.body` the handlers and the schema read: every path of the schema, `_id`
included. -/
structure Body where
  name : Option String := none
  email : Option String := none
  password : Option String := none
  phone : Option Nat := none
  role : Option String := none
  image : Option String := none
  padelMatches : Option (List String) := none
  _id : Option String := none
  deriving DecidableEq

/-- The uploaded file `req.file`, of which the handlers read `path`. -/
structure File where
  path : String
  deriving DecidableEq

/-- Default of the path `image`. -/
def defaultImage : String := "../../assets/avatar.png"

/-- Default of the path `role`. -/
def defaultRole : String := "user"

/-- The constructor `new User(body)`: every path of the schema is taken from the body when the
body carries it; `name`, `email`, `password` go through the `trim` setter; `role` and `image`
otherwise take their defaults, `padelMatches` is otherwise empty, and `_id` is otherwise the
generated `id`. -/
def newUser (id : String) (b : Body) : UserDoc :=
  { _id := b._id.getD id
    name := b.name.map jsTrim
    email := b.email.map jsTrim
    password := b.password.map jsTrim
    phone := b.phone
    role := b.role.getD defaultRole
    image := b.image.getD defaultImage
    padelMatches := b.padelMatches.getD [] }

/-- Assignment `doc.password = v`, through the `trim` setter of the path. -/
def UserDoc.setPassword (d : UserDoc) (v : String) : UserDoc :=
  { d with password := some (jsTrim v) }

/-- Assignment `doc.image = v`; the path has no setter. -/
def UserDoc.setImage (d : UserDoc) (v : String) : UserDoc :=
  { d with image := v }

/-- Character class `[a-zA-Z0-9._-]` of the `match` expression. -/
def isLocalChar (c : Char) : Bool :=
  c.isAlphanum || c == '.' || c == '_' || c == '-'

/-- Character class `[a-zA-Z0-9.-]` of the `match` expression. -/
def isDomainChar (c : Char) : Bool :=
  c.isAlphanum || c == '.' || c == '-'

/-- What the unescaped `.` of the `match` expression accepts: one code unit, no line terminator. -/
def isDotChar (c : Char) : Bool :=
  let n := c.toNat
  n < 0x10000 && !(n == 0xA || n == 0xD || n == 0x2028 || n == 0x2029)

/-- Whether `rest` is `[a-zA-Z0-9.-]+ . [a-zA-Z]{k}`. -/
def domainMatch (rest : List Char) (k : Nat) : Bool :=
  let n := rest.length
  k + 2 ≤ n &&
    (rest.drop (n - k)).all Char.isAlpha &&
    ((rest.drop (n - k - 1)).head?.map isDotChar).getD false &&
    (rest.take (n - k - 1)).all isDomainChar

/-- The expression `/^[a-zA-Z0-9._-]+@[a-zA-Z0-9.-]+.[a-zA-Z]{2,6}$/` of the path `email`. -/
def emailMatch (s : String) : Bool :=
  let cs := s.data
  let loc := cs.takeWhile isLocalChar
  match cs.dropWhile isLocalChar with
  | '@' :: rest => !loc.isEmpty && [2, 3, 4, 5, 6].any (domainMatch rest)
  | _ => false

/-- The paths of a document that fail validation: `required` on `name`, `email`, `password`,
`phone`; `match` on a non-empty `email`; `enum` on `role`. -/
def invalidPaths (d : UserDoc) : List String :=
  (if truthy d.name then [] else ["name"]) ++
  (if truthy d.email then (if emailMatch (d.email.getD "") then [] else ["email"]) else ["email"]) ++
  (if truthy d.password then [] else ["password"]) ++
  (if d.phone.isSome then [] else ["phone"]) ++
  (if d.role == "admin" || d.role == "user" then [] else ["role"])

/-- The record a document persists as; its required paths are set once validation has passed. -/
def UserDoc.toUser (d : UserDoc) : User :=
  { _id := d._id
    name := d.name.getD ""
    email := d.email.getD ""
    password := d.password.getD ""
    phone := d.phone.getD 0
    role := d.role
    image := d.image
    padelMatches := d.padelMatches }

/-! ## Filters, calls and responses -/

/-- One clause of a `$or` filter, with the value the handler put in it; `none` is `undefined`. -/
inductive Clause where
  | name (v : Option String)
  | email (v : Option String)
  | phone (v : Option Nat)
  deriving DecidableEq

/-- Whether a record satisfies a clause.  Mongoose casts the filter against the schema and runs
the setters of a path on the value the filter gives for it (`SchemaString.castForQuery`), so a
string value is compared after the `trim` setter.  What a clause whose value is `undefined`
selects is left to `undef`: every record when the key is dropped from the filter, none when it is
sent as `null`. -/
def Clause.selects (undef : Bool) : Clause → User → Bool
  | .name (some v), u => u.name == jsTrim v
  | .email (some v), u => u.email == jsTrim v
  | .phone (some v), u => u.phone == v
  | _, _ => undef

/-- Whether a record satisfies a filter `{ $or: clauses }`. -/
def selects (undef : Bool) (clauses : List Clause) (u : User) : Bool :=
  clauses.any fun c => c.selects undef u

/-- The filter `{ $or: [{ name }, { email }, { phone }] }` of `registerUser` and `updateUser`. -/
def orFilter (name email : Option String) (phone : Option Nat) : List Clause :=
  [.name name, .email email, .phone phone]

/-- The filter `{ $or: [{ name: userData }, { email: userData }] }` of `loginUser`. -/
def loginFilter (userData : String) : List Clause :=
  [.name (some userData), .email (some userData)]

/-- The calls a handler makes on the model `User` and on the file system. -/
inductive Op where
  | findOne (filter : List Clause)
  | findById (id : String)
  | save (doc : UserDoc)
  | findByIdAndUpdate (id : String) (doc : UserDoc)
  | findByIdAndDelete (id : String)
  | deleteImage (path : String)
  deriving DecidableEq

/-- What a handler can throw. -/
inductive Err where
  | store (message : String)
  | validation (paths : List String)
  | duplicateKey
  | headersSent
  | typeError
  | bcryptArguments
  deriving DecidableEq

/-- A JSON body handed to `res.json`. -/
inductive Payload where
  | message (m : Option String)
  | fallo (handler : String) (e : Err)
  | created (message : String) (userSaved : UserDoc)
  | login (message : String) (userLogin : User) (token : String)
  | updated (message : String) (userUpdated : Option User)
  | helper (json : String)
  deriving DecidableEq

/-- One call `res.status(status).json(body)`. -/
structure Response where
  status : Nat
  body : Payload
  deriving DecidableEq

/-- What the handlers take from outside the two source files.

* `ParamsErrorOfUser`, `registerUserControlDuplicated`, `idAndRoleChecked`, `generateToken`,
  `resultUserDeleted`: the helpers of `src/utils`, as functions of their arguments; a result that
  is a message or a falsy value is an `Option String`.
* `hashSync p` is `bcrypt.hashSync(p, 10)` and `compareSync p h` is `bcrypt.compareSync(p, h)` on
  strings; `hashSync_trim` records that a bcrypt digest has no white space at its ends.
* `objectId` is the `_id` Mongoose generates for a new document.
* `fault op` is the message of the error the call `op` on the store throws, if it throws one
  (connection lost, cast error of an id).
* `undefinedSelects` is what a filter clause with an `undefined` value selects, see
  `Clause.selects`. -/
structure Env where
  ParamsErrorOfUser : Option String → Option String → Option Nat → Option String → Option String
  registerUserControlDuplicated :
    Option User → Option String → Option String → Option Nat → Option String
  idAndRoleChecked : String → User → Option String
  generateToken : String → String
  resultUserDeleted : User → Response
  hashSync : String → String
  compareSync : String → String → Bool
  objectId : List User → String
  fault : Op → Option String
  undefinedSelects : Bool
  hashSync_trim : ∀ p, jsTrim (hashSync p) = hashSync p

/-- State of one request. -/
structure World where
  users : List User
  ops : List Op := []
  res : List Response := []
  deriving DecidableEq

/-- Result of a statement: it completes with a value, or throws. -/
inductive Step (α : Type) where
  | done (a : α) (w : World)
  | threw (e : Err) (w : World)

/-- The call `res.status(status).json(body)`: logged, and refused by Express when a response has
already been written. -/
def World.json (w : World) (status : Nat) (body : Payload) : Step Unit :=
  let w1 := { w with res := w.res ++ [⟨status, body⟩] }
  if w.res.isEmpty then .done () w1 else .threw .headersSent w1

/-- A call on the store: logged, and thrown out of when the database fails. -/
def World.call (w : World) (env : Env) (op : Op) : Step Unit :=
  let w1 := { w with ops := w.ops ++ [op] }
  match env.fault op with
  | some m => .threw (.store m) w1
  | none => .done () w1

/-- The query `User.findOne({ $or: [{ name }, { email }, { phone }] })`. -/
def findOne (env : Env) (w : World) (filter : List Clause) : Step (Option User) :=
  match w.call env (.findOne filter) with
  | .threw e w1 => .threw e w1
  | .done _ w1 => .done (w1.users.find? (selects env.undefinedSelects filter)) w1

/-- The query `User.findById(id)`. -/
def findById (env : Env) (w : World) (id : String) : Step (Option User) :=
  match w.call env (.findById id) with
  | .threw e w1 => .threw e w1
  | .done _ w1 => .done (w1.users.find? fun u => u._id == id) w1

/-- The hook `userSchema.pre("save")`: `this.password = bcrypt.hashSync(this.password, 10)`. -/
def preSave (env : Env) (d : UserDoc) : UserDoc :=
  d.setPassword (env.hashSync (d.password.getD ""))

/-- The method `doc.save()`: validation, then the `pre("save")` hook, then the insertion, which
the collection refuses when it already holds a record of that `_id`.  It resolves to the document
itself. -/
def save (env : Env) (w : World) (d : UserDoc) : Step UserDoc :=
  match w.call env (.save d) with
  | .threw e w1 => .threw e w1
  | .done _ w1 =>
    match invalidPaths d with
    | [] =>
      let d1 := preSave env d
      if w1.users.any (fun u => u._id == d1._id) then .threw .duplicateKey w1
      else .done d1 { w1 with users := w1.users ++ [d1.toUser] }
    | p :: ps => .threw (.validation (p :: ps)) w1

/-- The update `User.findByIdAndUpdate(id, doc, { new: true })` with a document as the update: the
paths set on the document are written over the record of that `_id`, the others are kept, no
validator and no `save` hook runs; it resolves to the updated record, or `null`. -/
def applyUpdate (doc : UserDoc) (u : User) : User :=
  { _id := u._id
    name := doc.name.getD u.name
    email := doc.email.getD u.email
    password := doc.password.getD u.password
    phone := doc.phone.getD u.phone
    role := doc.role
    image := doc.image
    padelMatches := doc.padelMatches }

/-- The collection after `findByIdAndUpdate`: the first record of that `_id` is rewritten. -/
def updateFirst (id : String) (doc : UserDoc) : List User → List User
  | [] => []
  | u :: us => if u._id == id then applyUpdate doc u :: us else u :: updateFirst id doc us

/-- The call `User.findByIdAndUpdate(id, doc, { new: true })`. -/
def findByIdAndUpdate (env : Env) (w : World) (id : String) (doc : UserDoc) : Step (Option User) :=
  match w.call env (.findByIdAndUpdate id doc) with
  | .threw e w1 => .threw e w1
  | .done _ w1 =>
    .done ((w1.users.find? fun u => u._id == id).map (applyUpdate doc))
      { w1 with users := updateFirst id doc w1.users }

/-- The collection after `findByIdAndDelete`: the first record of that `_id` is removed. -/
def deleteFirst (id : String) : List User → List User
  | [] => []
  | u :: us => if u._id == id then us else u :: deleteFirst id us

/-- The call `User.findByIdAndDelete(id)`: it resolves to the removed record, or `null`. -/
def findByIdAndDelete (env : Env) (w : World) (id : String) : Step (Option User) :=
  match w.call env (.findByIdAndDelete id) with
  | .threw e w1 => .threw e w1
  | .done _ w1 =>
    .done (w1.users.find? fun u => u._id == id) { w1 with users := deleteFirst id w1.users }

/-- The helper `deleteImage(path)`: the removal of a stored image file, logged. -/
def deleteImage (w : World) (path : String) : World :=
  { w with ops := w.ops ++ [.deleteImage path] }

/-! ## The handlers: `src/api/controllers/users.js` -/

/-- A request: `req.body`, the uploaded file `req.file`, the path parameter `req.params.id`. -/
structure Request where
  body : Body := {}
  file : Option File := none
  id : String := ""

/-- What a handler leaves behind: the final state, and the error its promise rejects with when
the `catch` block itself throws. -/
structure Outcome where
  world : World
  rejected : Option Err
  deriving DecidableEq

/-- The block `catch (error) { return res.status(400).json(...) }` around a handler body. -/
def catchWith (handler : String) : Step Unit → Outcome
  | .done _ w => ⟨w, none⟩
  | .threw e w =>
    match w.json 400 (.fallo handler e) with
    | .done _ w1 => ⟨w1, none⟩
    | .threw e1 w1 => ⟨w1, some e1⟩

/-- Body of the `try` block of `registerUser`. -/
def registerUserTry (env : Env) (req : Request) (w : World) : Step Unit :=
  let name := req.body.name
  let email := req.body.email
  let password := req.body.password
  let phone := req.body.phone
  let userParamsError := env.ParamsErrorOfUser name password phone email
  if truthy userParamsError then
    w.json 400 (.message userParamsError)
  else
    match findOne env w (orFilter name email phone) with
    | .threw e w1 => .threw e w1
    | .done userDuplicated w1 =>
      let errorDuplicated := env.registerUserControlDuplicated userDuplicated name email phone
      if userDuplicated.isSome then
        w1.json 400 (.message errorDuplicated)
      else
        let newUser := newUser (env.objectId w1.users) req.body
        if newUser.role == "admin" then
          w1.json 400 (.message (some "No tienes permisos para tener el rol de Administrador."))
        else
          match save env w1 newUser with
          | .threw e w2 => .threw e w2
          | .done userSaved w2 =>
            match req.file with
            | some file =>
              w2.json 201 (.created "Usuario creado correctamente." (userSaved.setImage file.path))
            | none =>
              match w2.json 400 (.message (some "No ha sido introducida ninguna imagen.")) with
              | .threw e w3 => .threw e w3
              | .done _ w3 => w3.json 201 (.created "Usuario creado correctamente." userSaved)

/-- The handler `registerUser`. -/
def registerUser (env : Env) (users : List User) (req : Request) : Outcome :=
  catchWith "registerUser" (registerUserTry env req { users := users })

/-- The call `bcrypt.compareSync(data, hash)` on a body field and a stored hash: bcrypt throws
when `data` is `undefined`. -/
def compareSync (env : Env) (w : World) (data : Option String) (hash : String) : Step Bool :=
  match data with
  | none => .threw .bcryptArguments w
  | some p => .done (env.compareSync p hash) w

/-- Body of the `try` block of `loginUser`, on the body fields `userData` and `password`. -/
def loginUserTry (env : Env) (userData : String) (password : Option String) (w : World) :
    Step Unit :=
  match findOne env w (loginFilter userData) with
  | .threw e w1 => .threw e w1
  | .done userLogin w1 =>
    match userLogin with
    | none => w1.json 400 (.message (some "Usuario o contraseña incorrectos."))
    | some userLogin =>
      match compareSync env w1 password userLogin.password with
      | .threw e w2 => .threw e w2
      | .done matched w2 =>
        if matched then
          let token := env.generateToken userLogin._id
          w2.json 200 (.login "LOGIN realizado correctamente." userLogin token)
        else
          w2.json 400 (.message (some "Usuario o contraseña incorrectos."))

/-- The handler `loginUser`. -/
def loginUser (env : Env) (users : List User) (userData : String) (password : Option String) :
    Outcome :=
  catchWith "loginUser" (loginUserTry env userData password { users := users })

/-- The document `updateUser` hands to `findByIdAndUpdate`: `new User(req.body)` with `_id` set to
the target, the password replaced by its hash when one is supplied, the image by the uploaded path
when a file is uploaded. -/
def userModify (env : Env) (req : Request) : UserDoc :=
  let d := { newUser req.id req.body with _id := req.id }
  let d := if truthy req.body.password then
      d.setPassword (env.hashSync (req.body.password.getD ""))
    else d
  match req.file with
  | some file => d.setImage file.path
  | none => d

/-- Body of the `try` block of `updateUser`; `user` is the authenticated caller. -/
def updateUserTry (env : Env) (req : Request) (user : User) (w : World) : Step Unit :=
  let id := req.id
  let name := req.body.name
  let email := req.body.email
  let password := req.body.password
  let phone := req.body.phone
  let userChecked := env.idAndRoleChecked id user
  if truthy userChecked then
    w.json 400 (.message userChecked)
  else
    match findOne env w (orFilter name email phone) with
    | .threw e w1 => .threw e w1
    | .done userDuplicated w1 =>
      let errorDuplicated := env.registerUserControlDuplicated userDuplicated name email phone
      if userDuplicated.isSome then
        w1.json 400 (.message errorDuplicated)
      else
        match findById env w1 id with
        | .threw e w2 => .threw e w2
        | .done oldUser w2 =>
          if truthy password && (jsLength (password.getD "") < 8 || jsLength (password.getD "") > 16) then
            w2.json 400 (.message (some "La contraseña debe de tener entre 8 y 16 caracteres."))
          else
            let doc := userModify env req
            let afterImage : Step Unit :=
              match req.file, oldUser with
              | none, _ => .done () w2
              | some _, some old => .done () (deleteImage w2 old.image)
              | some _, none => .threw .typeError w2
            match afterImage with
            | .threw e w3 => .threw e w3
            | .done _ w3 =>
              match findByIdAndUpdate env w3 id doc with
              | .threw e w4 => .threw e w4
              | .done userUpdated w4 =>
                w4.json 200 (.updated "Datos del usuario actualizados correctamente." userUpdated)

/-- The handler `updateUser`. -/
def updateUser (env : Env) (users : List User) (req : Request) (user : User) : Outcome :=
  catchWith "updateUser" (updateUserTry env req user { users := users })

/-- Body of the `try` block of `deleteUser`; `user` is the authenticated caller. -/
def deleteUserTry (env : Env) (req : Request) (user : User) (w : World) : Step Unit :=
  let id := req.id
  let userChecked := env.idAndRoleChecked id user
  if truthy userChecked then
    w.json 400 (.message userChecked)
  else
    match findByIdAndDelete env w id with
    | .threw e w1 => .threw e w1
    | .done userDeleted w1 =>
      match userDeleted with
      | none => .threw .typeError w1
      | some userDeleted =>
        let w2 := deleteImage w1 userDeleted.image
        let r := env.resultUserDeleted userDeleted
        w2.json r.status r.body

/-- The handler `deleteUser`. -/
def deleteUser (env : Env) (users : List User) (req : Request) (user : User) : Outcome :=
  catchWith "deleteUser" (deleteUserTry env req user { users := users })

/-! ## A concrete environment

The helpers of `src/utils` are not part of the sources at hand; to run the handlers on concrete
requests they are given the behaviour the specification describes. -/

/-- Modelled from the spec: the helper `ParamsErrorOfUser` of `src/utils`, which fails when
`name`, `password`, `phone` or `email` is missing, when the phone is not of length 9 (nine decimal
digits) or when the password is not of 8 to 16 characters. -/
def specParamsErrorOfUser (name password : Option String) (phone : Option Nat)
    (email : Option String) : Option String :=
  if !truthy name then some "name is missing"
  else if !truthy password then some "password is missing"
  else if phone.isNone then some "phone is missing"
  else if !truthy email then some "email is missing"
  else if !(100000000 ≤ phone.getD 0 && phone.getD 0 ≤ 999999999) then some "phone is not of length 9"
  else if jsLength (password.getD "") < 8 || jsLength (password.getD "") > 16 then
    some "password is not of 8 to 16 characters"
  else none

/-- Modelled from the spec: the helper `registerUserControlDuplicated` of `src/utils`, which names
the fields of the found record that collide with the submitted ones. -/
def specControlDuplicated (userDuplicated : Option User) (name email : Option String)
    (phone : Option Nat) : Option String :=
  match userDuplicated with
  | none => none
  | some u =>
    some ("duplicated:" ++ (if some u.name == name then " name" else "") ++
      (if some u.email == email then " email" else "") ++
      (if some u.phone == phone then " phone" else ""))

/-- Modelled from the spec: the helper `idAndRoleChecked` of `src/utils`, which lets the owner of
the target record and the role `admin` through and fails for every other caller. -/
def specIdAndRoleChecked (id : String) (user : User) : Option String :=
  if user._id == id || user.role == "admin" then none else some "not the owner and not an admin"

/-- Modelled from the spec: the helper `resultUserDeleted` of `src/utils`, which answers 200 with a
deletion confirmation. -/
def specResultUserDeleted (_userDeleted : User) : Response :=
  ⟨200, .helper "deleted"⟩

/-- A stand-in for `bcrypt.hashSync(p, 10)`: injective, and free of white space at both ends as a
bcrypt digest is. -/
def sampleHash (p : String) : String :=
  String.mk ('$' :: (p.data ++ ['$']))

/-- The concrete environment: helpers as the specification describes them, a database that never
fails. -/
def sampleEnv : Env :=
  { ParamsErrorOfUser := specParamsErrorOfUser
    registerUserControlDuplicated := specControlDuplicated
    idAndRoleChecked := specIdAndRoleChecked
    generateToken := fun id => "token:" ++ id
    resultUserDeleted := specResultUserDeleted
    hashSync := sampleHash
    compareSync := fun p h => h == sampleHash p
    objectId := fun users => "id" ++ toString users.length
    fault := fun _ => none
    undefinedSelects := false
    hashSync_trim := by
      intro p
      have h : isJsWhiteSpace '$' = false := by decide
      simp [jsTrim, sampleHash, List.dropWhile, h] }

/-- The environment `sampleEnv` with a database whose every call fails. -/
def downEnv : Env :=
  { sampleEnv with fault := fun _ => some "connection lost" }

/-- A registered user: `ana`, password `abcdefgh`. -/
def ana : User :=
  { _id := "id0", name := "ana", email := "ana@x.com", password := sampleHash "abcdefgh",
    phone := 123456789, role := "user", image := defaultImage, padelMatches := [] }

/-- A second registered user: `bob`, password `12345678`. -/
def bob : User :=
  { _id := "id1", name := "bob", email := "bob@x.com", password := sampleHash "12345678",
    phone := 987654321, role := "user", image := defaultImage, padelMatches := [] }

/-- A valid registration body for a new user `eve`. -/
def eveBody : Body :=
  { name := some "eve", email := some "eve@x.com", password := some "abcdefgh",
    phone := some 111222333 }

/-- A body for an update: a name, an email and a phone that no record holds. -/
def anitaBody : Body :=
  { name := some "anita", email := some "anita@x.com", phone := some 111222333 }

/-- The body with which `ana` resubmits her own current name, email and phone. -/
def anaBody : Body :=
  { name := some "ana", email := some "ana@x.com", phone := some 123456789 }

/-! ## Calls that complete, filters that select -/

theorem call_done (env : Env) (w : World) (op : Op) (h : env.fault op = none) :
    w.call env op = .done () { w with ops := w.ops ++ [op] } := by
  simp [World.call, h]

theorem findOne_done (env : Env) (w : World) (filter : List Clause)
    (h : env.fault (.findOne filter) = none) :
    findOne env w filter =
      .done (w.users.find? (selects env.undefinedSelects filter))
        { w with ops := w.ops ++ [.findOne filter] } := by
  simp [findOne, call_done env w _ h]

theorem findById_done (env : Env) (w : World) (id : String) (h : env.fault (.findById id) = none) :
    findById env w id =
      .done (w.users.find? fun u => u._id == id) { w with ops := w.ops ++ [.findById id] } := by
  simp [findById, call_done env w _ h]

/-- A record that equals the submitted name, email or phone, and holds its strings trimmed, is
selected by the cast filter. -/
theorem selects_of_equal (undef : Bool) (name email : Option String) (phone : Option Nat)
    (u : User) (htrim : jsTrim u.name = u.name ∧ jsTrim u.email = u.email)
    (hdup : name = some u.name ∨ email = some u.email ∨ phone = some u.phone) :
    selects undef (orFilter name email phone) u = true := by
  rcases hdup with h | h | h
  · simp [selects, orFilter, Clause.selects, h, htrim.1]
  · simp [selects, orFilter, Clause.selects, h, htrim.2]
  · simp [selects, orFilter, Clause.selects, h]

/-- C3: when `idAndRoleChecked(id, user)` returns an error message (the caller is neither the
owner of the target nor an admin), `updateUser` and `deleteUser` both answer with the one response
400 `{ message: <that message> }`, leave the collection as it was, and make no call at all on the
store or on the file system: no `findOne`, `findByIdAndUpdate` or `findByIdAndDelete`, no
`deleteImage`. -/
theorem updateUser_deleteUser_unauthorized (env : Env) (users : List User) (req : Request)
    (user : User) (hdenied : truthy (env.idAndRoleChecked req.id user) = true) :
    updateUser env users req user =
        ⟨{ users := users, ops := [],
           res := [⟨400, .message (env.idAndRoleChecked req.id user)⟩] }, none⟩ ∧
      deleteUser env users req user =
        ⟨{ users := users, ops := [],
           res := [⟨400, .message (env.idAndRoleChecked req.id user)⟩] }, none⟩ := by
  simp [updateUser, updateUserTry, deleteUser, deleteUserTry, hdenied, World.json, catchWith]

theorem updateUser_deleteUser_unauthorized_witness :
    truthy (sampleEnv.idAndRoleChecked "id0" bob) = true ∧
      updateUser sampleEnv [ana, bob] { body := { name := some "eve" }, id := "id0" } bob =
        ⟨{ users := [ana, bob], ops := [],
           res := [⟨400, .message (some "not the owner and not an admin")⟩] }, none⟩ ∧
      deleteUser sampleEnv [ana, bob] { body := { name := some "eve" }, id := "id0" } bob =
        ⟨{ users := [ana, bob], ops := [],
           res := [⟨400, .message (some "not the owner and not an admin")⟩] }, none⟩ :=
  ⟨by decide, updateUser_deleteUser_unauthorized sampleEnv [ana, bob]
    { body := { name := some "eve" }, id := "id0" } bob (by decide)⟩

/-- C1: a registration that passes `ParamsErrorOfUser`, whose lookup completes, and whose name,
email or phone equals that of a record `u` of the collection (held as the schema's `trim` setter
writes it) is answered with the one response 400 `{ message: registerUserControlDuplicated(found,
name, email, phone) }`, `found` being the record `findOne` returned; the collection is unchanged
and the only call on the store is that `findOne`, so `save` is never called. -/
theorem registerUser_duplicate_rejected (env : Env) (users : List User) (req : Request) (u : User)
    (hvalid : truthy (env.ParamsErrorOfUser req.body.name req.body.password req.body.phone
      req.body.email) = false)
    (hfault : env.fault (.findOne (orFilter req.body.name req.body.email req.body.phone)) = none)
    (hu : u ∈ users)
    (htrim : jsTrim u.name = u.name ∧ jsTrim u.email = u.email)
    (hdup : req.body.name = some u.name ∨ req.body.email = some u.email ∨
      req.body.phone = some u.phone) :
    ∃ found, users.find? (selects env.undefinedSelects
          (orFilter req.body.name req.body.email req.body.phone))
        = some found ∧
      registerUser env users req =
        ⟨{ users := users,
           ops := [.findOne (orFilter req.body.name req.body.email req.body.phone)],
           res := [⟨400, .message (env.registerUserControlDuplicated (some found) req.body.name
             req.body.email req.body.phone)⟩] }, none⟩ := by
  have hsel := selects_of_equal env.undefinedSelects req.body.name req.body.email
    req.body.phone u htrim hdup
  cases hfind : users.find? (selects env.undefinedSelects
        (orFilter req.body.name req.body.email req.body.phone)) with
  | none =>
    rw [List.find?_eq_none] at hfind
    exact absurd hsel (hfind u hu)
  | some found =>
    refine ⟨found, rfl, ?_⟩
    simp [registerUser, registerUserTry, hvalid, findOne_done env _ _ hfault, hfind, World.json,
      catchWith]

/-- The collection after `registerUser`: untouched, or extended by the one document `save`
persisted, which is the hooked `new User(req.body)`. -/
theorem registerUser_users (env : Env) (users : List User) (req : Request) :
    (registerUser env users req).world.users = users ∨
      ((newUser (env.objectId users) req.body).role ≠ "admin" ∧
        invalidPaths (newUser (env.objectId users) req.body) = [] ∧
        (registerUser env users req).world.users =
          users ++ [(preSave env (newUser (env.objectId users) req.body)).toUser]) := by
  unfold registerUser registerUserTry
  by_cases hp : truthy (env.ParamsErrorOfUser req.body.name req.body.password req.body.phone
      req.body.email) = true
  · simp [hp, World.json, catchWith]
  · simp only [hp]
    cases hf : env.fault (.findOne (orFilter req.body.name req.body.email req.body.phone)) with
    | some m => simp [findOne, World.call, hf, World.json, catchWith]
    | none =>
      cases hfind : users.find? (selects env.undefinedSelects
            (orFilter req.body.name req.body.email req.body.phone)) with
      | some d => simp [findOne, World.call, hf, hfind, World.json, catchWith]
      | none =>
        by_cases hr : (newUser (env.objectId users) req.body).role = "admin"
        · simp [findOne, World.call, hf, hfind, hr, World.json, catchWith]
        · cases hs : env.fault (.save (newUser (env.objectId users) req.body)) with
          | some m => simp [findOne, World.call, hf, hfind, hr, hs, save, World.json, catchWith]
          | none =>
            cases hv : invalidPaths (newUser (env.objectId users) req.body) with
            | cons p ps =>
              simp [findOne, World.call, hf, hfind, hr, hs, hv, save, World.json, catchWith]
            | nil =>
              cases hk : users.any (fun u =>
                  u._id == (preSave env (newUser (env.objectId users) req.body))._id) with
              | true =>
                simp [findOne, World.call, hf, hfind, hr, hs, hv, hk, save, World.json, catchWith]
              | false =>
                right
                refine ⟨hr, rfl, ?_⟩
                cases hfile : req.file with
                | some f =>
                  simp [findOne, World.call, hf, hfind, hr, hs, hv, hk, save, hfile, World.json,
                    catchWith]
                | none =>
                  simp [findOne, World.call, hf, hfind, hr, hs, hv, hk, save, hfile, World.json,
                    catchWith]

theorem truthy_password_of_valid (d : UserDoc) (h : invalidPaths d = []) :
    truthy d.password = true := by
  by_cases hp : truthy d.password = true
  · exact hp
  · simp [invalidPaths, hp] at h

theorem selects_login (undef : Bool) (userData : String) :
    selects undef (loginFilter userData) =
      fun u => u.name == jsTrim userData || u.email == jsTrim userData := by
  funext u
  simp [selects, loginFilter, Clause.selects]

/-- C6: a registration whose body sets `role` to `"admin"`, and that passes `ParamsErrorOfUser`
and the duplicate check, is answered with the one response 400 `{ message: "No tienes permisos para
tener el rol de Administrador." }`, with the collection unchanged and `save` not called; and for
every registration whatsoever the collection afterwards is the old one, or the old one extended by
a single record whose role is not `"admin"`. -/
theorem registerUser_no_admin (env : Env) (users : List User) (req : Request) :
    (req.body.role = some "admin" →
      truthy (env.ParamsErrorOfUser req.body.name req.body.password req.body.phone
        req.body.email) = false →
      env.fault (.findOne (orFilter req.body.name req.body.email req.body.phone)) = none →
      users.find? (selects env.undefinedSelects
            (orFilter req.body.name req.body.email req.body.phone)) = none →
      registerUser env users req =
        ⟨{ users := users,
           ops := [.findOne (orFilter req.body.name req.body.email req.body.phone)],
           res := [⟨400, .message
             (some "No tienes permisos para tener el rol de Administrador.")⟩] }, none⟩) ∧
    ((registerUser env users req).world.users = users ∨
      ∃ r, (registerUser env users req).world.users = users ++ [r] ∧ r.role ≠ "admin") := by
  constructor
  · intro hrole hvalid hfault hfind
    simp [registerUser, registerUserTry, hvalid, findOne_done env _ _ hfault, hfind, newUser,
      hrole, World.json, catchWith]
  · rcases registerUser_users env users req with h | ⟨hr, _, h⟩
    · exact Or.inl h
    · exact Or.inr ⟨_, h, by simpa [preSave, UserDoc.setPassword, UserDoc.toUser] using hr⟩

/-- C2, as amended: for a login that carries a password and whose lookup completes, let `u` be the
first record whose name or email equals the trimmed `userData`.  Either `u` exists, the password matches its stored hash, and
the response is 200 with `u` and `generateToken(u._id)`; or no such matching record exists and the
response is 400 `{ message: "Usuario o contraseña incorrectos." }`, the same whether the identity
is unknown or the password is wrong. -/
theorem loginUser_response (env : Env) (users : List User) (userData password : String)
    (hfault : env.fault (.findOne (loginFilter userData)) = none) :
    (∃ u, users.find? (fun u => u.name == jsTrim userData || u.email == jsTrim userData) = some u ∧
        env.compareSync password u.password = true ∧
        loginUser env users userData (some password) =
          ⟨{ users := users,
             ops := [.findOne (loginFilter userData)],
             res := [⟨200, .login "LOGIN realizado correctamente." u (env.generateToken u._id)⟩] },
           none⟩) ∨
      ((¬ ∃ u, users.find? (fun u => u.name == jsTrim userData || u.email == jsTrim userData)
            = some u ∧ env.compareSync password u.password = true) ∧
        loginUser env users userData (some password) =
          ⟨{ users := users,
             ops := [.findOne (loginFilter userData)],
             res := [⟨400, .message (some "Usuario o contraseña incorrectos.")⟩] }, none⟩) := by
  rw [← selects_login env.undefinedSelects]
  cases hfind : users.find? (selects env.undefinedSelects (loginFilter userData)) with
  | none =>
    right
    simp [loginUser, loginUserTry, findOne_done env _ _ hfault, hfind, World.json, catchWith]
  | some u =>
    by_cases hc : env.compareSync password u.password = true
    · left
      refine ⟨u, rfl, hc, ?_⟩
      simp [loginUser, loginUserTry, findOne_done env _ _ hfault, hfind, compareSync, hc,
        World.json, catchWith]
    · right
      simp [loginUser, loginUserTry, findOne_done env _ _ hfault, hfind, compareSync, hc,
        World.json, catchWith]

theorem loginUser_response_witness :
    (∃ u, [ana, bob].find? (fun u => u.name == jsTrim "bob@x.com" || u.email == jsTrim "bob@x.com")
          = some u ∧
        sampleEnv.compareSync "12345678" u.password = true ∧
        loginUser sampleEnv [ana, bob] "bob@x.com" (some "12345678") =
          ⟨{ users := [ana, bob],
             ops := [.findOne (loginFilter "bob@x.com")],
             res := [⟨200, .login "LOGIN realizado correctamente." u
               (sampleEnv.generateToken u._id)⟩] }, none⟩) ∨
      ((¬ ∃ u, [ana, bob].find? (fun u => u.name == jsTrim "bob@x.com" ||
            u.email == jsTrim "bob@x.com") = some u ∧
          sampleEnv.compareSync "12345678" u.password = true) ∧
        loginUser sampleEnv [ana, bob] "bob@x.com" (some "12345678") =
          ⟨{ users := [ana, bob],
             ops := [.findOne (loginFilter "bob@x.com")],
             res := [⟨400, .message (some "Usuario o contraseña incorrectos.")⟩] }, none⟩) :=
  loginUser_response sampleEnv [ana, bob] "bob@x.com" "12345678" (by decide)

/-- C2, counterexample: no record has the name or the email `" ana "`, yet the login with
`userData = " ana "` and the password of `ana` is answered 200 with a token, the filter being
trimmed to `"ana"` when it is cast against the schema. -/
theorem loginUser_padded_identity :
    (∀ u ∈ [ana, bob], ¬ (u.name = " ana " ∨ u.email = " ana ")) ∧
      loginUser sampleEnv [ana, bob] " ana " (some "abcdefgh") =
        ⟨{ users := [ana, bob],
           ops := [.findOne [.name (some " ana "), .email (some " ana ")]],
           res := [⟨200, .login "LOGIN realizado correctamente." ana "token:id0"⟩] }, none⟩ := by
  decide

/-- The document of `updateUser`, path by path. -/
theorem userModify_eq (env : Env) (req : Request) :
    userModify env req =
      { _id := req.id
        name := req.body.name.map jsTrim
        email := req.body.email.map jsTrim
        password :=
          if truthy req.body.password then req.body.password.map env.hashSync
          else req.body.password.map jsTrim
        phone := req.body.phone
        role := req.body.role.getD "user"
        image :=
          match req.file with
          | some file => file.path
          | none => req.body.image.getD "../../assets/avatar.png"
        padelMatches := req.body.padelMatches.getD [] } := by
  cases hp : req.body.password with
  | none => cases hf : req.file <;>
      simp [userModify, newUser, hp, hf, truthy, UserDoc.setImage, defaultRole, defaultImage]
  | some p =>
    by_cases ht : truthy (some p) = true
    · cases hf : req.file <;>
        simp [userModify, newUser, hp, hf, ht, UserDoc.setImage, UserDoc.setPassword,
          env.hashSync_trim, defaultRole, defaultImage]
    · cases hf : req.file <;>
        simp [userModify, newUser, hp, hf, ht, UserDoc.setImage, defaultRole, defaultImage]

/-- Every `findByIdAndUpdate` call of `updateUser` is on the target id, hands over `userModify`,
and comes after the password-length check. -/
theorem updateUser_update_calls (env : Env) (users : List User) (req : Request) (user : User)
    (i : String) (d : UserDoc)
    (h : Op.findByIdAndUpdate i d ∈ (updateUser env users req user).world.ops) :
    i = req.id ∧ d = userModify env req ∧
      (truthy req.body.password = true →
        8 ≤ jsLength (req.body.password.getD "") ∧ jsLength (req.body.password.getD "") ≤ 16) := by
  unfold updateUser updateUserTry at h
  by_cases ha : truthy (env.idAndRoleChecked req.id user) = true
  · simp [ha, World.json, catchWith] at h
  · simp only [ha] at h
    cases hf : env.fault (.findOne (orFilter req.body.name req.body.email req.body.phone)) with
    | some m => simp [findOne, World.call, hf, World.json, catchWith] at h
    | none =>
      cases hfind : users.find? (selects env.undefinedSelects
            (orFilter req.body.name req.body.email req.body.phone)) with
      | some dup => simp [findOne, World.call, hf, hfind, World.json, catchWith] at h
      | none =>
        cases hf2 : env.fault (.findById req.id) with
        | some m => simp [findOne, findById, World.call, hf, hfind, hf2, World.json, catchWith] at h
        | none =>
          by_cases hlen : (truthy req.body.password &&
              (jsLength (req.body.password.getD "") < 8 ||
                jsLength (req.body.password.getD "") > 16)) = true
          · simp [findOne, findById, World.call, hf, hfind, hf2, hlen, World.json, catchWith] at h
          · have hok : truthy req.body.password = true →
                8 ≤ jsLength (req.body.password.getD "") ∧
                  jsLength (req.body.password.getD "") ≤ 16 := by
              intro ht
              simp [ht] at hlen
              omega
            cases hfile : req.file with
            | none =>
              cases hf3 : env.fault (.findByIdAndUpdate req.id (userModify env req)) <;>
                simp [findOne, findById, findByIdAndUpdate, World.call, hf, hfind, hf2, hlen,
                  hfile, hf3, World.json, catchWith] at h <;>
                exact ⟨h.1, h.2, hok⟩
            | some f =>
              cases hold : users.find? (fun u => u._id == req.id) with
              | none =>
                simp [findOne, findById, findByIdAndUpdate, World.call, hf, hfind, hf2, hlen,
                  hfile, hold, World.json, catchWith] at h
              | some old =>
                cases hf3 : env.fault (.findByIdAndUpdate req.id (userModify env req)) <;>
                  simp [findOne, findById, findByIdAndUpdate, deleteImage, World.call, hf, hfind,
                    hf2, hlen, hfile, hold, hf3, World.json, catchWith] at h <;>
                  exact ⟨h.1, h.2, hok⟩

/-- The collection after `updateUser`: untouched, or rewritten by the one `findByIdAndUpdate`. -/
theorem updateUser_users (env : Env) (users : List User) (req : Request) (user : User) :
    (updateUser env users req user).world.users = users ∨
      (updateUser env users req user).world.users =
        updateFirst req.id (userModify env req) users := by
  unfold updateUser updateUserTry
  by_cases ha : truthy (env.idAndRoleChecked req.id user) = true
  · simp [ha, World.json, catchWith]
  · simp only [ha]
    cases hf : env.fault (.findOne (orFilter req.body.name req.body.email req.body.phone)) with
    | some m => simp [findOne, World.call, hf, World.json, catchWith]
    | none =>
      cases hfind : users.find? (selects env.undefinedSelects
            (orFilter req.body.name req.body.email req.body.phone)) with
      | some dup => simp [findOne, World.call, hf, hfind, World.json, catchWith]
      | none =>
        cases hf2 : env.fault (.findById req.id) with
        | some m => simp [findOne, findById, World.call, hf, hfind, hf2, World.json, catchWith]
        | none =>
          by_cases hlen : (truthy req.body.password &&
              (jsLength (req.body.password.getD "") < 8 ||
                jsLength (req.body.password.getD "") > 16)) = true
          · simp [findOne, findById, World.call, hf, hfind, hf2, hlen, World.json, catchWith]
          · cases hfile : req.file with
            | none =>
              cases hf3 : env.fault (.findByIdAndUpdate req.id (userModify env req)) <;>
                simp [findOne, findById, findByIdAndUpdate, World.call, hf, hfind, hf2, hlen,
                  hfile, hf3, World.json, catchWith]
            | some f =>
              cases hold : users.find? (fun u => u._id == req.id) with
              | none =>
                simp [findOne, findById, findByIdAndUpdate, World.call, hf, hfind, hf2, hlen,
                  hfile, hold, World.json, catchWith]
              | some old =>
                cases hf3 : env.fault (.findByIdAndUpdate req.id (userModify env req)) <;>
                  simp [findOne, findById, findByIdAndUpdate, deleteImage, World.call, hf, hfind,
                    hf2, hlen, hfile, hold, hf3, World.json, catchWith]

/-- A document without a password leaves every stored password in place. -/
theorem updateFirst_password (id : String) (doc : UserDoc) (h : doc.password = none)
    (users : List User) :
    (updateFirst id doc users).map User.password = users.map User.password := by
  induction users with
  | nil => rfl
  | cons u us ih =>
    by_cases hu : (u._id == id) = true
    · simp [updateFirst, hu, applyUpdate, h]
    · simp [updateFirst, hu, ih]

/-- A record of the rewritten collection is a record of the old one, or the rewritten target. -/
theorem mem_updateFirst (id : String) (doc : UserDoc) (users : List User) (v : User)
    (h : v ∈ updateFirst id doc users) : v ∈ users ∨ ∃ u ∈ users, v = applyUpdate doc u := by
  induction users with
  | nil => simp [updateFirst] at h
  | cons u us ih =>
    rw [updateFirst] at h
    split at h
    · rcases List.mem_cons.mp h with h1 | h1
      · exact Or.inr ⟨u, List.mem_cons_self _ _, h1⟩
      · exact Or.inl (List.mem_cons_of_mem _ h1)
    · rcases List.mem_cons.mp h with h1 | h1
      · exact Or.inl (h1 ▸ List.mem_cons_self _ _)
      · rcases ih h1 with h2 | ⟨w, hw, h2⟩
        · exact Or.inl (List.mem_cons_of_mem _ h2)
        · exact Or.inr ⟨w, List.mem_cons_of_mem _ hw, h2⟩

/-- What `updateUser` does right on the password: an authorized update that passes the duplicate
check, whose store calls complete, and that supplies a non-empty password of fewer than 8 or more than 16 characters is answered with the
one response 400 `{ message: "La contraseña debe de tener entre 8 y 16 caracteres." }`; the
collection is unchanged and the calls made are `findOne` and `findById` only, so neither
`findByIdAndUpdate` nor `deleteImage` is called.  And when the body has no password, every stored
password is what it was and every document handed to `findByIdAndUpdate` has no password set. -/
theorem updateUser_password_length (env : Env) (users : List User) (req : Request) (user : User) :
    (∀ p, req.body.password = some p → p ≠ "" → (jsLength p < 8 ∨ jsLength p > 16) →
      truthy (env.idAndRoleChecked req.id user) = false →
      env.fault (.findOne (orFilter req.body.name req.body.email req.body.phone)) = none →
      users.find? (selects env.undefinedSelects
            (orFilter req.body.name req.body.email req.body.phone)) = none →
      env.fault (.findById req.id) = none →
      updateUser env users req user =
        ⟨{ users := users,
           ops := [.findOne (orFilter req.body.name req.body.email req.body.phone),
             .findById req.id],
           res := [⟨400, .message
             (some "La contraseña debe de tener entre 8 y 16 caracteres.")⟩] }, none⟩) ∧
    (req.body.password = none →
      (updateUser env users req user).world.users.map User.password = users.map User.password ∧
      ∀ i d, Op.findByIdAndUpdate i d ∈ (updateUser env users req user).world.ops →
        d.password = none) := by
  constructor
  · intro p hp hne hlen hauth hf hfind hf2
    have ht : truthy (some p) = true := by simp [truthy, hne]
    have hbad : (decide (jsLength p < 8) || decide (jsLength p > 16)) = true := by
      simpa using hlen
    simp [updateUser, updateUserTry, hauth, findOne_done env _ _ hf, hfind,
      findById_done env _ _ hf2, hp, ht, hbad, World.json, catchWith]
  · intro hp
    have hdoc : (userModify env req).password = none := by
      rw [userModify_eq]
      simp [hp, truthy]
    constructor
    · rcases updateUser_users env users req user with h | h
      · rw [h]
      · rw [h, updateFirst_password _ _ hdoc]
    · intro i d h
      rw [(updateUser_update_calls env users req user i d h).2.1]
      exact hdoc

theorem findById_some (users : List User) (id : String) (h : ∃ old ∈ users, old._id = id) :
    ∃ old, users.find? (fun u => u._id == id) = some old := by
  rcases h with ⟨old, hmem, hid⟩
  cases hfind : users.find? (fun u => u._id == id) with
  | some o => exact ⟨o, rfl⟩
  | none =>
    rw [List.find?_eq_none] at hfind
    exact absurd (by simp [hid]) (hfind old hmem)

/-- C10, as amended: for an update that passes the authorization, duplicate and password-length
checks (its `findOne` and `findById` completing, and the target existing when a file is uploaded),
the document handed to `findByIdAndUpdate` is `new User(req.body)` with `_id` the target id: name,
email and phone are those of the body (the strings trimmed), the password is the hash of the body's
when a non-empty one is supplied, the role is the body's role when one is supplied (whatever it
is, `"admin"` included, whoever the caller is) and `"user"` otherwise, the image is the uploaded
path when a file is uploaded, otherwise the body's `image` when the body carries one, otherwise
the default placeholder, `padelMatches` is the body's when the body carries it and empty
otherwise; nothing of it comes from the old record.  That call is made, and `updateUser` makes no
other `findByIdAndUpdate` call. -/
theorem updateUser_document (env : Env) (users : List User) (req : Request) (user : User)
    (hauth : truthy (env.idAndRoleChecked req.id user) = false)
    (hfault : env.fault (.findOne (orFilter req.body.name req.body.email req.body.phone)) = none)
    (hnodup : users.find? (selects env.undefinedSelects
          (orFilter req.body.name req.body.email req.body.phone)) = none)
    (hfault2 : env.fault (.findById req.id) = none)
    (hlen : truthy req.body.password = true →
      8 ≤ jsLength (req.body.password.getD "") ∧ jsLength (req.body.password.getD "") ≤ 16)
    (hold : req.file = none ∨ ∃ old ∈ users, old._id = req.id) :
    userModify env req =
        { _id := req.id
          name := req.body.name.map jsTrim
          email := req.body.email.map jsTrim
          password :=
            if truthy req.body.password then req.body.password.map env.hashSync
            else req.body.password.map jsTrim
          phone := req.body.phone
          role := req.body.role.getD "user"
          image :=
            match req.file with
            | some file => file.path
            | none => req.body.image.getD "../../assets/avatar.png"
          padelMatches := req.body.padelMatches.getD [] } ∧
      Op.findByIdAndUpdate req.id (userModify env req) ∈
        (updateUser env users req user).world.ops ∧
      ∀ i d, Op.findByIdAndUpdate i d ∈ (updateUser env users req user).world.ops →
        i = req.id ∧ d = userModify env req := by
  refine ⟨userModify_eq env req, ?_, fun i d h => ?_⟩
  · have hlen2 : (truthy req.body.password &&
        (decide (jsLength (req.body.password.getD "") < 8) ||
          decide (jsLength (req.body.password.getD "") > 16))) = false := by
      by_cases ht : truthy req.body.password = true
      · have := hlen ht
        simp [ht]
        omega
      · simp [ht]
    cases hfile : req.file with
    | none =>
      cases hf3 : env.fault (.findByIdAndUpdate req.id (userModify env req)) <;>
        simp [updateUser, updateUserTry, hauth, findOne_done env _ _ hfault, hnodup,
          findById_done env _ _ hfault2, hlen2, hfile, findByIdAndUpdate, World.call, hf3,
          World.json, catchWith]
    | some f =>
      have hex : ∃ old ∈ users, old._id = req.id := by
        rcases hold with h | h
        · simp [hfile] at h
        · exact h
      rcases findById_some users req.id hex with ⟨old, hfound⟩
      cases hf3 : env.fault (.findByIdAndUpdate req.id (userModify env req)) <;>
        simp [updateUser, updateUserTry, hauth, findOne_done env _ _ hfault, hnodup,
          findById_done env _ _ hfault2, hlen2, hfile, hfound, deleteImage, findByIdAndUpdate,
          World.call, hf3, World.json, catchWith]
  · exact ⟨(updateUser_update_calls env users req user i d h).1,
      (updateUser_update_calls env users req user i d h).2.1⟩

/-- C5, as amended: for an authorized update whose lookup completes, if any record `u` of the
collection, the target record itself included, has the submitted name, email or phone (and holds
its strings as the schema's `trim` setter writes them), the request is rejected as a duplicate: the one response is 400 `{ message: registerUserControlDuplicated(found,
name, email, phone) }`, the collection is unchanged and the only call on the store is `findOne`. -/
theorem updateUser_duplicate_rejected (env : Env) (users : List User) (req : Request)
    (user u : User)
    (hauth : truthy (env.idAndRoleChecked req.id user) = false)
    (hfault : env.fault (.findOne (orFilter req.body.name req.body.email req.body.phone)) = none)
    (hu : u ∈ users)
    (htrim : jsTrim u.name = u.name ∧ jsTrim u.email = u.email)
    (hdup : req.body.name = some u.name ∨ req.body.email = some u.email ∨
      req.body.phone = some u.phone) :
    ∃ found, users.find? (selects env.undefinedSelects
          (orFilter req.body.name req.body.email req.body.phone))
        = some found ∧
      updateUser env users req user =
        ⟨{ users := users,
           ops := [.findOne (orFilter req.body.name req.body.email req.body.phone)],
           res := [⟨400, .message (env.registerUserControlDuplicated (some found) req.body.name
             req.body.email req.body.phone)⟩] }, none⟩ := by
  have hsel := selects_of_equal env.undefinedSelects req.body.name req.body.email
    req.body.phone u htrim hdup
  cases hfind : users.find? (selects env.undefinedSelects
        (orFilter req.body.name req.body.email req.body.phone)) with
  | none =>
    rw [List.find?_eq_none] at hfind
    exact absurd hsel (hfind u hu)
  | some found =>
    refine ⟨found, rfl, ?_⟩
    simp [updateUser, updateUserTry, hauth, findOne_done env _ _ hfault, hfind, World.json,
      catchWith]

/-- C9, as amended: every response `registerUser` writes is the 201 success or has status 400;
the body of a 400 is an object `{ message }` (validation, duplicate, admin role, missing image) or
the bare string `"❌ Fallo en registerUser: ..."` of the `catch` block; and a request that carries
an uploaded file, or after which the collection is unchanged, writes exactly one response and its
handler does not reject. -/
theorem registerUser_responses (env : Env) (users : List User) (req : Request) :
    (∀ r ∈ (registerUser env users req).world.res,
      (r.status = 201 ∧ ∃ d, r.body = .created "Usuario creado correctamente." d) ∨
      (r.status = 400 ∧
        ((∃ m, r.body = .message m) ∨ ∃ e, r.body = .fallo "registerUser" e))) ∧
    ((req.file ≠ none ∨ (registerUser env users req).world.users = users) →
      (registerUser env users req).world.res.length = 1 ∧
        (registerUser env users req).rejected = none) := by
  unfold registerUser registerUserTry
  by_cases hp : truthy (env.ParamsErrorOfUser req.body.name req.body.password req.body.phone
      req.body.email) = true
  · simp [hp, World.json, catchWith]
  · simp only [hp]
    cases hf : env.fault (.findOne (orFilter req.body.name req.body.email req.body.phone)) with
    | some m => simp [findOne, World.call, hf, World.json, catchWith]
    | none =>
      cases hfind : users.find? (selects env.undefinedSelects
            (orFilter req.body.name req.body.email req.body.phone)) with
      | some d => simp [findOne, World.call, hf, hfind, World.json, catchWith]
      | none =>
        by_cases hr : (newUser (env.objectId users) req.body).role = "admin"
        · simp [findOne, World.call, hf, hfind, hr, World.json, catchWith]
        · cases hs : env.fault (.save (newUser (env.objectId users) req.body)) with
          | some m => simp [findOne, World.call, hf, hfind, hr, hs, save, World.json, catchWith]
          | none =>
            cases hv : invalidPaths (newUser (env.objectId users) req.body) with
            | cons p ps =>
              simp [findOne, World.call, hf, hfind, hr, hs, hv, save, World.json, catchWith]
            | nil =>
              cases hk : users.any (fun u =>
                  u._id == (preSave env (newUser (env.objectId users) req.body))._id) with
              | true =>
                simp [findOne, World.call, hf, hfind, hr, hs, hv, hk, save, World.json, catchWith]
              | false =>
                cases hfile : req.file with
                | some f =>
                  simp [findOne, World.call, hf, hfind, hr, hs, hv, hk, save, hfile, World.json,
                    catchWith]
                | none =>
                  simp [findOne, World.call, hf, hfind, hr, hs, hv, hk, save, hfile, World.json,
                    catchWith]

/-- The password `registerUser` persists: when the registration goes through to the insertion,
the collection is extended by one record whose password is `hash(trim(p))`, the `pre("save")` hook
applied once to the body's password as the schema's setter trimmed it. -/
theorem registerUser_saved_password (env : Env) (users : List User) (req : Request) (p : String)
    (hp : req.body.password = some p)
    (hvalid : truthy (env.ParamsErrorOfUser req.body.name req.body.password req.body.phone
      req.body.email) = false)
    (hfault : env.fault (.findOne (orFilter req.body.name req.body.email req.body.phone)) = none)
    (hnodup : users.find? (selects env.undefinedSelects
      (orFilter req.body.name req.body.email req.body.phone)) = none)
    (hrole : (newUser (env.objectId users) req.body).role ≠ "admin")
    (hsave : env.fault (.save (newUser (env.objectId users) req.body)) = none)
    (hv : invalidPaths (newUser (env.objectId users) req.body) = [])
    (hfresh : users.any (fun u =>
      u._id == (preSave env (newUser (env.objectId users) req.body))._id) = false) :
    ∃ r, (registerUser env users req).world.users = users ++ [r] ∧
      r.password = env.hashSync (jsTrim p) := by
  refine ⟨(preSave env (newUser (env.objectId users) req.body)).toUser, ?_, ?_⟩
  · cases hfile : req.file <;>
      simp [registerUser, registerUserTry, hvalid, findOne_done env _ _ hfault, hnodup, hrole,
        save, World.call, hsave, hv, hfresh, hfile, World.json, catchWith]
  · simp [preSave, UserDoc.setPassword, UserDoc.toUser, newUser, hp, env.hashSync_trim]

/-- The password `updateUser` stores: when an update that supplies a password `p` of 8 to 16
characters goes through to the write on an existing target, the collection is the old one with the
target rewritten, the response is 200 with the rewritten target, and its password is `hash(p)` of
`p` as submitted; no hook runs on top of it. -/
theorem updateUser_stored_password (env : Env) (users : List User) (req : Request)
    (user old : User) (p : String)
    (hp : req.body.password = some p) (hne : p ≠ "")
    (hlen : 8 ≤ jsLength p ∧ jsLength p ≤ 16)
    (hauth : truthy (env.idAndRoleChecked req.id user) = false)
    (hfault : env.fault (.findOne (orFilter req.body.name req.body.email req.body.phone)) = none)
    (hnodup : users.find? (selects env.undefinedSelects
      (orFilter req.body.name req.body.email req.body.phone)) = none)
    (hfault2 : env.fault (.findById req.id) = none)
    (hold : users.find? (fun u => u._id == req.id) = some old)
    (hfault3 : env.fault (.findByIdAndUpdate req.id (userModify env req)) = none) :
    (updateUser env users req user).world.users =
        updateFirst req.id (userModify env req) users ∧
      (updateUser env users req user).world.res =
        [⟨200, .updated "Datos del usuario actualizados correctamente."
          (some (applyUpdate (userModify env req) old))⟩] ∧
      (applyUpdate (userModify env req) old).password = env.hashSync p := by
  have ht : truthy (some p) = true := by simp [truthy, hne]
  have hlen2 : (decide (jsLength p < 8) || decide (jsLength p > 16)) = false := by
    simp
    omega
  have hdoc : (userModify env req).password = some (env.hashSync p) := by
    rw [userModify_eq]
    simp [hp, ht]
  refine ⟨?_, ?_, by simp [applyUpdate, hdoc]⟩
  · cases hfile : req.file <;>
      simp [updateUser, updateUserTry, hauth, findOne_done env _ _ hfault, hnodup,
        findById_done env _ _ hfault2, hp, ht, hlen2, hfile, hold, deleteImage,
        findByIdAndUpdate, World.call, hfault3, World.json, catchWith]
  · cases hfile : req.file <;>
      simp [updateUser, updateUserTry, hauth, findOne_done env _ _ hfault, hnodup,
        findById_done env _ _ hfault2, hp, ht, hlen2, hfile, hold, deleteImage,
        findByIdAndUpdate, World.call, hfault3, World.json, catchWith]

/-- A login that carries no password: for a known identity `bcrypt.compareSync` throws and the
`catch` block answers with its bare string, for an unknown identity the answer is the generic
message. -/
theorem loginUser_missing_password :
    loginUser sampleEnv [ana, bob] "ana" none =
        ⟨{ users := [ana, bob],
           ops := [.findOne (loginFilter "ana")],
           res := [⟨400, .fallo "loginUser" .bcryptArguments⟩] }, none⟩ ∧
      loginUser sampleEnv [ana, bob] "eve" none =
        ⟨{ users := [ana, bob],
           ops := [.findOne (loginFilter "eve")],
           res := [⟨400, .message (some "Usuario o contraseña incorrectos.")⟩] }, none⟩ := by
  decide

theorem registerUser_duplicate_rejected_witness :
    ∃ found, [ana, bob].find? (selects sampleEnv.undefinedSelects
          (orFilter (some "eve") (some "bob@x.com") (some 111222333))) = some found ∧
      registerUser sampleEnv [ana, bob] { body := { eveBody with email := some "bob@x.com" } } =
        ⟨{ users := [ana, bob],
           ops := [.findOne (orFilter (some "eve") (some "bob@x.com") (some 111222333))],
           res := [⟨400, .message (sampleEnv.registerUserControlDuplicated (some found)
             (some "eve") (some "bob@x.com") (some 111222333))⟩] }, none⟩ :=
  registerUser_duplicate_rejected sampleEnv [ana, bob]
    { body := { eveBody with email := some "bob@x.com" } } bob
    (by decide) (by decide) (by decide) (by decide) (by decide)

theorem registerUser_no_admin_witness :
    registerUser sampleEnv [ana] { body := { eveBody with role := some "admin" } } =
      ⟨{ users := [ana],
         ops := [.findOne (orFilter (some "eve") (some "eve@x.com") (some 111222333))],
         res := [⟨400, .message
           (some "No tienes permisos para tener el rol de Administrador.")⟩] }, none⟩ :=
  (registerUser_no_admin sampleEnv [ana] { body := { eveBody with role := some "admin" } }).1
    (by decide) (by decide) (by decide) (by decide)

theorem updateUser_password_length_witness :
    updateUser sampleEnv [ana, bob]
        { body := { anitaBody with password := some "short" }, id := "id0" } ana =
      ⟨{ users := [ana, bob],
         ops := [.findOne (orFilter (some "anita") (some "anita@x.com") (some 111222333)),
           .findById "id0"],
         res := [⟨400, .message
           (some "La contraseña debe de tener entre 8 y 16 caracteres.")⟩] }, none⟩ :=
  (updateUser_password_length sampleEnv [ana, bob]
    { body := { anitaBody with password := some "short" }, id := "id0" } ana).1 "short"
    (by decide) (by decide) (by decide) (by decide) (by decide) (by decide) (by decide)

theorem updateUser_document_witness :
    ana.role = "user" ∧
      Op.findByIdAndUpdate "id0"
          { _id := "id0", name := some "anita", email := some "anita@x.com",
            password := some (sampleEnv.hashSync "newpassword"), phone := some 111222333,
            role := "admin", image := "uploads/anita.png", padelMatches := [] } ∈
        (updateUser sampleEnv [ana, bob]
          { body := { anitaBody with password := some "newpassword", role := some "admin" },
            file := some ⟨"uploads/anita.png"⟩, id := "id0" } ana).world.ops :=
  ⟨by decide,
    (updateUser_document sampleEnv [ana, bob]
      { body := { anitaBody with password := some "newpassword", role := some "admin" },
        file := some ⟨"uploads/anita.png"⟩, id := "id0" } ana
      (by decide) (by decide) (by decide) (by decide) (by decide)
      (Or.inr ⟨ana, by decide, by decide⟩)).2.1⟩

/-- C10, counterexample: `ana` updates her record with a body that carries `image` and uploads no
file.  The document handed to `findByIdAndUpdate` has the body's image, not the default
placeholder, and that image is what the collection then holds. -/
theorem updateUser_body_image :
    updateUser sampleEnv [ana, bob]
        { body := { anitaBody with image := some "uploads/from-body.png" }, id := "id0" } ana =
      ⟨{ users := [{ ana with name := "anita", email := "anita@x.com", phone := 111222333,
                              image := "uploads/from-body.png" }, bob],
         ops := [.findOne [.name (some "anita"), .email (some "anita@x.com"),
                           .phone (some 111222333)],
                 .findById "id0",
                 .findByIdAndUpdate "id0"
                   { _id := "id0", name := some "anita", email := some "anita@x.com",
                     password := none, phone := some 111222333, role := "user",
                     image := "uploads/from-body.png", padelMatches := [] }],
         res := [⟨200, .updated "Datos del usuario actualizados correctamente."
                   (some { ana with name := "anita", email := "anita@x.com", phone := 111222333,
                                    image := "uploads/from-body.png" })⟩] }, none⟩ ∧
      "uploads/from-body.png" ≠ defaultImage := by
  decide

theorem updateUser_duplicate_rejected_witness :
    ana._id = "id0" ∧
      ∃ found, [ana, bob].find? (selects sampleEnv.undefinedSelects
          (orFilter (some "ana") (some "ana@x.com") (some 123456789))) = some found ∧
        updateUser sampleEnv [ana, bob] { body := anaBody, id := "id0" } ana =
          ⟨{ users := [ana, bob],
             ops := [.findOne (orFilter (some "ana") (some "ana@x.com") (some 123456789))],
             res := [⟨400, .message (sampleEnv.registerUserControlDuplicated (some found)
               (some "ana") (some "ana@x.com") (some 123456789))⟩] }, none⟩ :=
  ⟨by decide,
    updateUser_duplicate_rejected sampleEnv [ana, bob] { body := anaBody, id := "id0" } ana ana
      (by decide) (by decide) (by decide) (by decide) (by decide)⟩

/-- C5, counterexample: `ana`, the owner of the record `id0`, resubmits her own current name, email
and phone.  The only record the filter selects is the target itself, and the request is rejected
as a duplicate. -/
theorem updateUser_own_values_rejected :
    (∀ u ∈ [ana, bob],
        selects sampleEnv.undefinedSelects
            (orFilter (some "ana") (some "ana@x.com") (some 123456789)) u = true →
          u._id = "id0") ∧
      sampleEnv.idAndRoleChecked "id0" ana = none ∧
      updateUser sampleEnv [ana, bob] { body := anaBody, id := "id0" } ana =
        ⟨{ users := [ana, bob],
           ops := [.findOne [.name (some "ana"), .email (some "ana@x.com"),
                             .phone (some 123456789)]],
           res := [⟨400, .message (some "duplicated: name email phone")⟩] }, none⟩ := by
  decide

theorem registerUser_responses_witness :
    (registerUser sampleEnv [ana]
        { body := eveBody, file := some ⟨"uploads/eve.png"⟩ }).world.res.length = 1 ∧
      (registerUser sampleEnv [ana]
        { body := eveBody, file := some ⟨"uploads/eve.png"⟩ }).rejected = none :=
  (registerUser_responses sampleEnv [ana]
    { body := eveBody, file := some ⟨"uploads/eve.png"⟩ }).2 (Or.inl (by decide))

/-- C9, counterexample: the database fails on the lookup of a valid registration.  The response has
status 400 and its body is the bare string of the `catch` block, not an object with a `message`
field. -/
theorem registerUser_store_failure_body :
    registerUser downEnv [] { body := eveBody, file := some ⟨"uploads/eve.png"⟩ } =
      ⟨{ users := [],
         ops := [.findOne [.name (some "eve"), .email (some "eve@x.com"),
                           .phone (some 111222333)]],
         res := [⟨400, .fallo "registerUser" (.store "connection lost")⟩] }, none⟩ ∧
      ¬ ∃ m, Payload.fallo "registerUser" (.store "connection lost") = Payload.message m :=
  ⟨by decide, by rintro ⟨m, h⟩; cases h⟩

/-- C4, the code at the failing input: a registration with the password `" abcdefgh "` (ten
characters) succeeds, and the password persisted is the hash of `"abcdefgh"`, the schema having
trimmed the password before the hook hashed it, not the hash of the password submitted; the
password submitted does not verify against it, and the login with it is refused. -/
theorem registerUser_padded_password :
    registerUser sampleEnv []
        { body := { name := some "ana", email := some "ana@x.com", password := some " abcdefgh ",
                    phone := some 123456789 },
          file := some ⟨"uploads/ana.png"⟩ } =
      ⟨{ users := [ana],
         ops := [.findOne [.name (some "ana"), .email (some "ana@x.com"),
                           .phone (some 123456789)],
                 .save { _id := "id0", name := some "ana", email := some "ana@x.com",
                         password := some "abcdefgh", phone := some 123456789, role := "user",
                         image := "../../assets/avatar.png", padelMatches := [] }],
         res := [⟨201, .created "Usuario creado correctamente."
                   { _id := "id0", name := some "ana", email := some "ana@x.com",
                     password := some (sampleEnv.hashSync "abcdefgh"), phone := some 123456789,
                     role := "user", image := "uploads/ana.png", padelMatches := [] }⟩] },
        none⟩ ∧
      ana.password = sampleEnv.hashSync "abcdefgh" ∧
      sampleEnv.hashSync "abcdefgh" ≠ sampleEnv.hashSync " abcdefgh " ∧
      sampleEnv.compareSync " abcdefgh " ana.password = false ∧
      loginUser sampleEnv [ana] "ana" (some " abcdefgh ") =
        ⟨{ users := [ana],
           ops := [.findOne (loginFilter "ana")],
           res := [⟨400, .message (some "Usuario o contraseña incorrectos.")⟩] }, none⟩ := by
  decide

/-- C8, the code at the failing input: `ana` updates her record with a body whose password is the
empty string, which `if (password)` treats as no password.  The handler answers 200, no length
check and no hash having run, and the stored hash of `ana` is overwritten with the empty string
that `new User(req.body)` put on the document. -/
theorem updateUser_empty_password :
    updateUser sampleEnv [ana, bob]
        { body := { anitaBody with password := some "" }, id := "id0" } ana =
      ⟨{ users := [{ ana with name := "anita", email := "anita@x.com", phone := 111222333,
                              password := "" }, bob],
         ops := [.findOne [.name (some "anita"), .email (some "anita@x.com"),
                           .phone (some 111222333)],
                 .findById "id0",
                 .findByIdAndUpdate "id0"
                   { _id := "id0", name := some "anita", email := some "anita@x.com",
                     password := some "", phone := some 111222333, role := "user",
                     image := "../../assets/avatar.png", padelMatches := [] }],
         res := [⟨200, .updated "Datos del usuario actualizados correctamente."
                   (some { ana with name := "anita", email := "anita@x.com", phone := 111222333,
                                    password := "" })⟩] }, none⟩ ∧
      truthy (some "") = false ∧
      ana.password ≠ "" := by
  decide

/-- C7, the code at the failing input: a valid registration that carries the uploaded file
`uploads/eve.png` succeeds with 201; the record persisted has the default placeholder as its
image, the uploaded path being set on the document only after `save`, where it reaches the
response and not the store. -/
theorem registerUser_image_not_persisted :
    registerUser sampleEnv [] { body := eveBody, file := some ⟨"uploads/eve.png"⟩ } =
      ⟨{ users := [{ _id := "id0", name := "eve", email := "eve@x.com",
                     password := sampleEnv.hashSync "abcdefgh", phone := 111222333,
                     role := "user", image := "../../assets/avatar.png", padelMatches := [] }],
         ops := [.findOne [.name (some "eve"), .email (some "eve@x.com"),
                           .phone (some 111222333)],
                 .save { _id := "id0", name := some "eve", email := some "eve@x.com",
                         password := some "abcdefgh", phone := some 111222333, role := "user",
                         image := "../../assets/avatar.png", padelMatches := [] }],
         res := [⟨201, .created "Usuario creado correctamente."
                   { _id := "id0", name := some "eve", email := some "eve@x.com",
                     password := some (sampleEnv.hashSync "abcdefgh"), phone := some 111222333,
                     role := "user", image := "uploads/eve.png", padelMatches := [] }⟩] },
        none⟩ := by
  decide

end Users
